import Mathlib

/-!
Verification of the exam-grading pipeline (exam-sizhong repository).

This file gives a shallow embedding of the core pipeline:
* `AIClient.chat` / `AIClient.chat_json` (src/src/ai/ai_client.py) — the
  inference gateway with its retry loop and defensive JSON decoding;
* `AIJudge.judge` / `_build_prompt` / `_parse_result`
  (src/src/grading/ai_judge.py) — per-question judging;
* `ScoreCalculator` (src/src/grading/score_calculator.py) — aggregation;
* `GradingSystem.run` (src/main.py) — the run loop.

Modelling conventions: Python strings are `List Char`; Python floats are
exact rationals `ℚ` (float rounding artifacts are idealized away);
Python exceptions are the `Except` error channel, carrying the message;
`time.sleep` / `asyncio.sleep` are recorded as waited durations rather
than performed.
-/

namespace ExamGrading

/-- Python strings are modelled as lists of characters. -/
abbrev Str := List Char

/-- The whitespace characters removed by Python's `str.strip()`. -/
def isPySpace (c : Char) : Bool :=
  c == ' ' || c == '\t' || c == '\n' || c == '\r' || c == '\x0b' || c == '\x0c'

/-- Left part of Python `str.strip()`. -/
def pyTrimLeft (s : Str) : Str := s.dropWhile isPySpace

/-- Right part of Python `str.strip()`. -/
def pyTrimRight (s : Str) : Str := (s.reverse.dropWhile isPySpace).reverse

/-- Python `str.strip()`: remove leading and trailing whitespace. -/
def pyStrip (s : Str) : Str := pyTrimRight (pyTrimLeft s)

/-- Python slicing `s[:-n]` for `n ≥ 1`: drop the last `n` characters. -/
def pyDropRight (s : Str) (n : Nat) : Str := (s.reverse.drop n).reverse

/-- JSON values, as produced by Python's `json.loads` (numbers are
modelled as exact rationals, covering ints and floats). -/
inductive JVal where
  | null : JVal
  | bool (b : Bool) : JVal
  | num (q : ℚ) : JVal
  | str (s : Str) : JVal
  | arr (xs : List JVal) : JVal
  | obj (kvs : List (Str × JVal)) : JVal

/-- Python `round(x, 2)` idealized over exact rationals: round
`x * 100` to the nearest integer, ties to even, then divide by 100. -/
def roundHalfEven (x : ℚ) : Int :=
  let f : Int := ⌊x⌋
  let r : ℚ := x - f
  if r < 1/2 then f
  else if 1/2 < r then f + 1
  else if f % 2 = 0 then f else f + 1

/-- Python `round(x, 2)` (two decimal places). -/
def pyRound2 (x : ℚ) : ℚ := (roundHalfEven (x * 100) : ℚ) / 100

/-- A question from configuration.  In the source each question is a
dict read with `q.get("id", ...)`, `q.get("text", "")`,
`q.get("answer", "")`, `q.get("points", ...)`; the pipeline always
supplies these keys, so they are modelled as record fields. -/
structure Question where
  id : Int
  text : Str
  answer : Str
  points : ℚ
deriving DecidableEq

/-- A judgment result dict as produced by `AIJudge.judge`: keys
`score` and `comment`, plus `question_id` on the failure path only
(`none` models an absent key). The `comment` value is carried through
as-is from the reply mapping, so it is an arbitrary JSON value. -/
structure JudgeResult where
  score : ℚ
  comment : JVal
  question_id : Option Int

/-- One entry of the report's `details` list
(src/src/grading/score_calculator.py, lines 54-60). -/
structure ReportDetail where
  question_id : Int
  question : Str
  max_points : ℚ
  score : ℚ
  comment : JVal

/-- The report dict built by `ScoreCalculator.generate_report`. -/
structure ExamReport where
  total_score : ℚ
  max_score : ℚ
  passing_score : ℚ
  percentage : ℚ
  passed : Bool
  details : List ReportDetail

/-- `ScoreCalculator` state: `__init__` stores the question list, the
passing score, and `max_score = sum(q.get("points", 0) for q in questions)`
computed once at construction. -/
structure ScoreCalculator where
  questions : List Question
  passing_score : ℚ
  max_score : ℚ

/-- `ScoreCalculator.__init__(questions, passing_score)`. -/
def ScoreCalculator.make (questions : List Question) (passing_score : ℚ) :
    ScoreCalculator :=
  { questions := questions
    passing_score := passing_score
    max_score := (questions.map Question.points).sum }

/-- `ScoreCalculator.calculate_total`: sum of
`result.get("score", 0)` over all judge results. -/
def ScoreCalculator.calculate_total (_c : ScoreCalculator)
    (judge_results : List JudgeResult) : ℚ :=
  (judge_results.map JudgeResult.score).sum

/-- `ScoreCalculator.generate_report`: total over all judge results,
details built by `zip(self.questions, judge_results)` (positional,
truncating to the shorter list), percentage `round(total/max*100, 2)`
guarded by `max_score > 0`, and `passed = total_score >= passing_score`. -/
def ScoreCalculator.generate_report (c : ScoreCalculator)
    (judge_results : List JudgeResult) : ExamReport :=
  let total_score := c.calculate_total judge_results
  let details := (c.questions.zip judge_results).map fun qr =>
    { question_id := qr.1.id
      question := qr.1.text
      max_points := qr.1.points
      score := qr.2.score
      comment := qr.2.comment : ReportDetail }
  { total_score := total_score
    max_score := c.max_score
    passing_score := c.passing_score
    percentage :=
      if 0 < c.max_score then pyRound2 (total_score / c.max_score * 100) else 0
    passed := decide (c.passing_score ≤ total_score)
    details := details }

/-- `ScoreCalculator.is_passed`. -/
def ScoreCalculator.is_passed (c : ScoreCalculator) (score : ℚ) : Bool :=
  decide (c.passing_score ≤ score)

/-! ### A model of Python's `json.loads`

`AIClient.chat_json` delegates parsing to the standard library's
`json.loads`.  We model it with an executable recursive-descent parser
over `Str` covering the JSON grammar (strings with the common escapes,
numbers with fraction and exponent, arrays, objects, literals); a
`none` result models `json.JSONDecodeError`.  Unsupported corners
(`\u` escapes) are rejected, which only makes `none` more frequent. -/

/-- JSON structural whitespace. -/
def isJsonWs (c : Char) : Bool :=
  c == ' ' || c == '\t' || c == '\n' || c == '\r'

/-- Skip JSON whitespace. -/
def skipWs (s : Str) : Str := s.dropWhile isJsonWs

/-- The `\x7b` character (left curly bracket). -/
def lbrace : Char := Char.ofNat 123

/-- The `\x7d` character (right curly bracket). -/
def rbrace : Char := Char.ofNat 125

/-- JSON string escapes (without `\u`, which we reject). -/
def escChar : Char → Option Char
  | 'n' => some '\n'
  | 't' => some '\t'
  | 'r' => some '\r'
  | 'b' => some (Char.ofNat 8)
  | 'f' => some (Char.ofNat 12)
  | '"' => some '"'
  | '\\' => some '\\'
  | '/' => some '/'
  | _ => none

/-- Parse a JSON string body (after the opening quote), returning the
decoded characters and the remainder after the closing quote. -/
def parseStringBody : Str → Option (Str × Str)
  | [] => none
  | '"' :: r => some ([], r)
  | '\\' :: c :: r =>
    match escChar c with
    | some ec =>
      match parseStringBody r with
      | some (cs, r') => some (ec :: cs, r')
      | none => none
    | none => none
  | c :: r =>
    match parseStringBody r with
    | some (cs, r') => some (c :: cs, r')
    | none => none

/-- Decimal digits to a natural number. -/
def digitsToNat (ds : List Char) : Nat :=
  ds.foldl (fun a c => a * 10 + (c.toNat - 48)) 0

/-- Parse a JSON exponent part (after `e`/`E`), scaling `m`. -/
def parseExpPart (m : ℚ) (r : Str) : Option (ℚ × Str) :=
  let sr : Int × Str :=
    match r with
    | '+' :: t => (1, t)
    | '-' :: t => (-1, t)
    | _ => (1, r)
  let ed := sr.2.takeWhile Char.isDigit
  let r2 := sr.2.dropWhile Char.isDigit
  if ed.isEmpty then none
  else some (m * (10 : ℚ) ^ (sr.1 * (digitsToNat ed : Int)), r2)

/-- Parse a JSON number (integer part mandatory, optional fraction and
exponent), returning its exact rational value. -/
def parseNum (s : Str) : Option (ℚ × Str) :=
  let ns : Bool × Str :=
    match s with
    | '-' :: r => (true, r)
    | _ => (false, s)
  let ip := ns.2.takeWhile Char.isDigit
  let s2 := ns.2.dropWhile Char.isDigit
  if ip.isEmpty then none
  else
    let base : ℚ := (digitsToNat ip : ℚ)
    let step2 : Option (ℚ × Str) :=
      match s2 with
      | '.' :: r =>
        let fp := r.takeWhile Char.isDigit
        let r' := r.dropWhile Char.isDigit
        if fp.isEmpty then none
        else some (base + (digitsToNat fp : ℚ) / (10 : ℚ) ^ fp.length, r')
      | _ => some (base, s2)
    match step2 with
    | none => none
    | some (m, s3) =>
      let step3 : Option (ℚ × Str) :=
        match s3 with
        | 'e' :: r => parseExpPart m r
        | 'E' :: r => parseExpPart m r
        | _ => some (m, s3)
      match step3 with
      | none => none
      | some (m2, s4) => some (if ns.1 then -m2 else m2, s4)

mutual

/-- Parse one JSON value at the head of `s` (no leading whitespace). -/
def parseValue : Nat → Str → Option (JVal × Str)
  | 0, _ => none
  | f + 1, s =>
    match s with
    | [] => none
    | 'n' :: 'u' :: 'l' :: 'l' :: r => some (.null, r)
    | 't' :: 'r' :: 'u' :: 'e' :: r => some (.bool true, r)
    | 'f' :: 'a' :: 'l' :: 's' :: 'e' :: r => some (.bool false, r)
    | '"' :: r =>
      match parseStringBody r with
      | some (cs, r') => some (.str cs, r')
      | none => none
    | '[' :: r =>
      match skipWs r with
      | ']' :: r2 => some (.arr [], r2)
      | r1 =>
        match parseElems f r1 with
        | some (xs, r2) => some (.arr xs, r2)
        | none => none
    | c :: r =>
      if c = lbrace then
        match skipWs r with
        | [] => none
        | d :: r2 =>
          if d = rbrace then some (.obj [], r2)
          else
            match parseMembers f (d :: r2) with
            | some (kvs, r3) => some (.obj kvs, r3)
            | none => none
      else
        match parseNum (c :: r) with
        | some (q, r') => some (.num q, r')
        | none => none

/-- Parse a nonempty comma-separated list of values ending in `]`. -/
def parseElems : Nat → Str → Option (List JVal × Str)
  | 0, _ => none
  | f + 1, s =>
    match parseValue f s with
    | none => none
    | some (v, r) =>
      match skipWs r with
      | ',' :: r2 =>
        match parseElems f (skipWs r2) with
        | some (xs, r3) => some (v :: xs, r3)
        | none => none
      | ']' :: r2 => some ([v], r2)
      | _ => none

/-- Parse a nonempty comma-separated list of `"key": value` members
ending in a closing curly bracket. -/
def parseMembers : Nat → Str → Option (List (Str × JVal) × Str)
  | 0, _ => none
  | f + 1, s =>
    match s with
    | '"' :: r =>
      match parseStringBody r with
      | none => none
      | some (k, r1) =>
        match skipWs r1 with
        | ':' :: r2 =>
          match parseValue f (skipWs r2) with
          | none => none
          | some (v, r3) =>
            match skipWs r3 with
            | ',' :: r4 =>
              match parseMembers f (skipWs r4) with
              | some (kvs, r5) => some ((k, v) :: kvs, r5)
              | none => none
            | d :: r4 => if d = rbrace then some ([(k, v)], r4) else none
            | [] => none
        | _ => none
    | _ => none

end

/-- Model of `json.loads`: parse one value surrounded by optional
whitespace; anything else is a decode error (`none`). -/
def json_loads (s : Str) : Option JVal :=
  match parseValue (2 * s.length + 2) (skipWs s) with
  | some (v, rest) => if skipWs rest = [] then some v else none
  | none => none

/-- Python `dict.get(key)` on the parsed object's members (for
duplicate keys `json.loads` keeps the last occurrence, hence the
reversed search). -/
def dictGet (kvs : List (Str × JVal)) (key : Str) : Option JVal :=
  (kvs.reverse.find? (fun kv => kv.1 == key)).map Prod.snd

/-! ### InferenceGateway: `AIClient.chat` and `AIClient.chat_json`

`AIClient.chat` runs `for attempt in range(self.max_retries)`: each
iteration calls the underlying client; on success it returns the
response text, on exception it re-raises a wrapping `RuntimeError` if
`attempt == self.max_retries - 1` and otherwise sleeps
`(attempt + 1) * 2` seconds and continues.  If the loop body never
runs (`max_retries == 0`) the function falls through and returns
`None`.  The underlying client call is modelled as a function from the
attempt index to `Except` (exception or response text); sleeps are
recorded in a trace. -/

/-- Observable outcome of one `AIClient.chat` call: the returned value
(`.ok (some text)`), the Python `None` fall-through (`.ok none`) or a
raised exception (`.error msg`), together with the number of underlying
attempts made and the list of backoff waits (in seconds) performed. -/
structure ChatTrace where
  result : Except Str (Option Str)
  attempts : Nat
  waits : List Nat

/-- The message of the `RuntimeError` raised after the last attempt:
`f"AI 调用失败（重试 {self.max_retries} 次后）: {e}"` — it wraps the
final cause `e`. -/
def wrapFailMsg (max_retries : Nat) (cause : Str) : Str :=
  ("AI 调用失败（重试 ").toList ++ (toString max_retries).toList ++
    (" 次后）: ").toList ++ cause

/-- The retry loop of `AIClient.chat`, at loop index `attempt` with
`remaining` iterations left (`attempt + remaining = max_retries` at
every reachable call). -/
def AIClient.chatAux (call : Nat → Except Str Str) (max_retries : Nat) :
    Nat → Nat → ChatTrace
  | _, 0 => ⟨.ok none, 0, []⟩
  | attempt, r + 1 =>
    match call attempt with
    | .ok s => ⟨.ok (some s), 1, []⟩
    | .error e =>
      if attempt = max_retries - 1 then
        ⟨.error (wrapFailMsg max_retries e), 1, []⟩
      else
        let rest := AIClient.chatAux call max_retries (attempt + 1) r
        ⟨rest.result, rest.attempts + 1, (attempt + 1) * 2 :: rest.waits⟩

/-- `AIClient.chat`: the retry loop started at attempt 0. -/
def AIClient.chat (call : Nat → Except Str Str) (max_retries : Nat) :
    ChatTrace :=
  AIClient.chatAux call max_retries 0 max_retries

/-- The markdown-fence stripping inside `AIClient.chat_json`
(lines 124-130): strip whitespace, then conditionally drop a leading
7-character marker, a leading 3-character marker, and a trailing
3-character marker. -/
def fenceStrip (response_text : Str) : Str :=
  let t0 := pyStrip response_text
  let t1 := if (("```json").toList).isPrefixOf t0 then t0.drop 7 else t0
  let t2 := if (("```").toList).isPrefixOf t1 then t1.drop 3 else t1
  if (("```").toList).isSuffixOf t2 then pyDropRight t2 3 else t2

/-- The exact string handed to `json.loads` by `chat_json`
(`json.loads(text.strip())` after fence stripping). -/
def decodeText (response_text : Str) : Str := pyStrip (fenceStrip response_text)

/-- `AIClient.chat_json`: call `chat`; on a string response strip
fences and parse, returning the `{"raw": response_text}` sentinel on
`json.JSONDecodeError`.  A `None` response (the `max_retries == 0`
fall-through) hits `response_text.strip()` and raises an
`AttributeError`, which the `except json.JSONDecodeError` handler does
not catch; an exception from `chat` propagates. -/
def AIClient.chat_json (call : Nat → Except Str Str) (max_retries : Nat) :
    Except Str JVal :=
  match (AIClient.chat call max_retries).result with
  | .error e => .error e
  | .ok none =>
    .error (("AttributeError: 'NoneType' object has no attribute 'strip'").toList)
  | .ok (some response_text) =>
    match json_loads (decodeText response_text) with
    | some v => .ok v
    | none => .ok (.obj [((("raw").toList), .str response_text)])

/-! ### Judge: `AIJudge`

Prompt templates are pluggable (`main.py` takes
`config["questions"].get("prompt_template")` when present).  A Python
format string is modelled as a list of literal and replacement-field
pieces; `str.format(question=..., standard_answer=..., student_answer=...,
max_points=...)` substitutes the four keyword arguments and raises
`KeyError` on any other field name. -/

/-- One piece of a format-string template. -/
inductive TItem where
  | lit (s : Str) : TItem
  | field (name : Str) : TItem

/-- A prompt template, as parsed format-string pieces. -/
abbrev Template := List TItem

/-- The substitution performed by `AIJudge._build_prompt`'s call to
`str.format`: the four supplied keyword arguments. -/
def formatField (question : Question) (student_answer : Str) (name : Str) :
    Option Str :=
  if name = ("question").toList then some question.text
  else if name = ("standard_answer").toList then some question.answer
  else if name = ("student_answer").toList then some student_answer
  else if name = ("max_points").toList then some ((toString question.points).toList)
  else none

/-- `template.format(...)`: substitute fields left to right; an
unknown field name raises `KeyError`. -/
def formatTemplate (template : Template) (question : Question)
    (student_answer : Str) : Except Str Str :=
  match template with
  | [] => .ok []
  | .lit s :: rest =>
    (formatTemplate rest question student_answer).map (fun t => s ++ t)
  | .field n :: rest =>
    match formatField question student_answer n with
    | some v => (formatTemplate rest question student_answer).map (fun t => v ++ t)
    | none => .error (("KeyError: ").toList ++ n)

/-- `AIJudge._build_prompt`: format the template with the question
fields (`question.get("text", "")`, `question.get("answer", "")`, the
student answer, `question.get("points", 10)`). -/
def AIJudge.build_prompt (template : Template) (question : Question)
    (student_answer : Str) : Except Str Str :=
  formatTemplate template question student_answer

/-- Python `float(x)` on a string: optional sign, digits with optional
decimal point (at least one digit overall), optional exponent, allowing
surrounding whitespace. -/
def strToFloat (s : Str) : Option ℚ :=
  let t := pyStrip s
  let ns : Bool × Str :=
    match t with
    | '-' :: r => (true, r)
    | '+' :: r => (false, r)
    | _ => (false, t)
  let ip := ns.2.takeWhile Char.isDigit
  let s2 := ns.2.dropWhile Char.isDigit
  let fr : Option (List Char × Str) :=
    match s2 with
    | '.' :: r => some (r.takeWhile Char.isDigit, r.dropWhile Char.isDigit)
    | _ => some ([], s2)
  match fr with
  | none => none
  | some (fp, s3) =>
    if ip.isEmpty && fp.isEmpty then none
    else
      let m : ℚ := (digitsToNat ip : ℚ) + (digitsToNat fp : ℚ) / (10 : ℚ) ^ fp.length
      let ex : Option (ℚ × Str) :=
        match s3 with
        | 'e' :: r => parseExpPart m r
        | 'E' :: r => parseExpPart m r
        | _ => some (m, s3)
      match ex with
      | none => none
      | some (m2, s4) =>
        if s4.isEmpty then some (if ns.1 then -m2 else m2) else none

/-- Python `float(x)` over JSON values: numbers and booleans convert,
numeric strings parse, everything else raises (`ValueError` or
`TypeError`, both caught by `_parse_result`). -/
def pyFloat (v : JVal) : Option ℚ :=
  match v with
  | .num q => some q
  | .bool b => some (if b then 1 else 0)
  | .str s => strToFloat s
  | .null => none
  | .arr _ => none
  | .obj _ => none

/-- `AIJudge._parse_result`: read `result.get("score", 0)` and
`result.get("comment", "")`, coerce the score to float treating
coercion failure as 0, and clamp with `max(0, min(score, max_points))`.
Calling `.get` on a non-dict reply (e.g. a parsed JSON list or string)
raises `AttributeError`, modelled by the error branch. -/
def AIJudge.parse_result (result : JVal) (max_points : ℚ) :
    Except Str JudgeResult :=
  match result with
  | .obj kvs =>
    let score0 : JVal := (dictGet kvs (("score").toList)).getD (.num 0)
    let comment : JVal := (dictGet kvs (("comment").toList)).getD (.str [])
    let score1 : ℚ := (pyFloat score0).getD 0
    .ok { score := max 0 (min score1 max_points)
          comment := comment
          question_id := none }
  | _ => .error (("AttributeError: object has no attribute 'get'").toList)

/-- `AIJudge.judge`.  `self._build_prompt(question, student_answer)` is
executed **before** the `try` block, so its exceptions propagate; the
`try` block covers the gateway call and `self._parse_result(result,
question["points"])`, and its `except` returns
`{"score": 0, "comment": f"判卷失败: {e}", "question_id": question.get("id")}`.
The underlying inference call is abstracted as `call`, as in
`AIClient.chat`. -/
def AIJudge.judge (call : Nat → Except Str Str) (max_retries : Nat)
    (template : Template) (question : Question) (student_answer : Str) :
    Except Str JudgeResult :=
  match AIJudge.build_prompt template question student_answer with
  | .error e => .error e
  | .ok _prompt =>
    match AIClient.chat_json call max_retries with
    | .ok result =>
      match AIJudge.parse_result result question.points with
      | .ok jr => .ok jr
      | .error e =>
        .ok { score := 0
              comment := .str ((("判卷失败: ").toList) ++ e)
              question_id := some question.id }
    | .error e =>
      .ok { score := 0
            comment := .str ((("判卷失败: ").toList) ++ e)
            question_id := some question.id }

/-! ### Orchestrator: `GradingSystem.run`

`run(max_exams)` loops `while max_exams is None or processed < max_exams`,
awaits `process_exam()` (which catches every exception and returns a
boolean), increments `processed` on success and `break`s on failure,
sleeping 2 seconds after each successful attempt before re-checking the
condition.  Attempt outcomes are modelled as a finite list of booleans
consumed one per iteration (the run followed for as many attempts as the
list provides); sleeps are recorded as waited seconds. -/

/-- Observable outcome of a run: the final `processed` counter, the
number of attempts started, and the total inter-exam wait. -/
structure RunTrace where
  processed : Nat
  attempts : Nat
  total_wait : Nat
deriving DecidableEq

/-- The `while` loop of `GradingSystem.run`, with current counter
`processed`. -/
def GradingSystem.runAux (max_exams : Option Nat) :
    List Bool → Nat → RunTrace
  | [], processed => ⟨processed, 0, 0⟩
  | o :: rest, processed =>
    if (match max_exams with
        | none => true
        | some m => decide (processed < m)) then
      if o then
        let t := GradingSystem.runAux max_exams rest (processed + 1)
        ⟨t.processed, t.attempts + 1, t.total_wait + 2⟩
      else ⟨processed, 1, 0⟩
    else ⟨processed, 0, 0⟩

/-- `GradingSystem.run`: the loop started with `processed = 0`. -/
def GradingSystem.run (outcomes : List Bool) (max_exams : Option Nat) :
    RunTrace :=
  GradingSystem.runAux max_exams outcomes 0

/-- Modelled from the claim's wording, for comparison with the source's
`fenceStrip`: strip whitespace, then at most one leading marker (either
the 7-character json marker or the bare 3-character marker, not both),
then at most one trailing marker, then the final strip before parsing. -/
def specDecodeText (response_text : Str) : Str :=
  let t0 := pyStrip response_text
  let t1 :=
    if (("```json").toList).isPrefixOf t0 then t0.drop 7
    else if (("```").toList).isPrefixOf t0 then t0.drop 3
    else t0
  let t2 := if (("```").toList).isSuffixOf t1 then pyDropRight t1 3 else t1
  pyStrip t2

/-! ## Theorems -/

/-- C1: for every list of judgment results paired positionally with the
constructed question list, `generate_report` returns a report whose
`total_score` is the sum of the results' scores, whose `percentage` is
`round(total/max*100, 2)` when `max_score > 0` and `0` otherwise, whose
`passed` is `total_score >= passing_score`, and whose `max_score`
(computed at construction) is the sum of all question points; in
particular scores `[8, 15]` against points `[10, 20]` with passing
score `20` give total `23`, max `30`, percentage `76.67`, passed. -/
theorem generate_report_correct :
    (∀ (qs : List Question) (ps : ℚ) (rs : List JudgeResult),
      ((ScoreCalculator.make qs ps).generate_report rs).total_score =
        (rs.map JudgeResult.score).sum ∧
      ((ScoreCalculator.make qs ps).generate_report rs).max_score =
        (qs.map Question.points).sum ∧
      ((ScoreCalculator.make qs ps).generate_report rs).percentage =
        (if 0 < (qs.map Question.points).sum then
          pyRound2 ((rs.map JudgeResult.score).sum / (qs.map Question.points).sum * 100)
        else 0) ∧
      (((ScoreCalculator.make qs ps).generate_report rs).passed = true ↔
        ps ≤ (rs.map JudgeResult.score).sum)) ∧
    (((ScoreCalculator.make [⟨1, [], [], 10⟩, ⟨2, [], [], 20⟩] 20).generate_report
        [⟨8, .str [], none⟩, ⟨15, .str [], none⟩]).total_score = 23 ∧
     ((ScoreCalculator.make [⟨1, [], [], 10⟩, ⟨2, [], [], 20⟩] 20).generate_report
        [⟨8, .str [], none⟩, ⟨15, .str [], none⟩]).max_score = 30 ∧
     ((ScoreCalculator.make [⟨1, [], [], 10⟩, ⟨2, [], [], 20⟩] 20).generate_report
        [⟨8, .str [], none⟩, ⟨15, .str [], none⟩]).percentage = 76.67 ∧
     ((ScoreCalculator.make [⟨1, [], [], 10⟩, ⟨2, [], [], 20⟩] 20).generate_report
        [⟨8, .str [], none⟩, ⟨15, .str [], none⟩]).passed = true) := by
  constructor
  · intro qs ps rs
    refine ⟨rfl, rfl, rfl, ?_⟩
    simp [ScoreCalculator.generate_report, ScoreCalculator.calculate_total,
      ScoreCalculator.make]
  · refine ⟨?_, ?_, ?_, ?_⟩ <;>
      norm_num [ScoreCalculator.generate_report, ScoreCalculator.calculate_total,
        ScoreCalculator.make, pyRound2, roundHalfEven, Int.floor_eq_iff]

/-- C5: `_parse_result` reads the score from the reply mapping coerced
to float (0 when coercion fails), reads the comment defaulting to the
empty string, and clamps the score with `max(0, min(score, maxPoints))`;
and for `maxPoints > 0` the clamp lands in `[0, maxPoints]` and is the
identity on scores already in range. -/
theorem parse_result_clamp :
    (∀ (kvs : List (Str × JVal)) (mp : ℚ),
      AIJudge.parse_result (.obj kvs) mp =
        .ok { score :=
                max 0 (min ((pyFloat ((dictGet kvs (("score").toList)).getD
                  (.num 0))).getD 0) mp)
              comment := (dictGet kvs (("comment").toList)).getD (.str [])
              question_id := none }) ∧
    (∀ (s mp : ℚ), 0 < mp →
      0 ≤ max 0 (min s mp) ∧ max 0 (min s mp) ≤ mp ∧
      (0 ≤ s → s ≤ mp → max 0 (min s mp) = s)) := by
  constructor
  · intro kvs mp
    rfl
  · intro s mp hmp
    refine ⟨le_max_left 0 _, max_le hmp.le (min_le_right s mp), ?_⟩
    intro h0 hle
    rw [min_eq_left hle, max_eq_right h0]

/-- Witness for C5 at a concrete reply mapping and concrete scores. -/
theorem parse_result_clamp_witness :
    (AIJudge.parse_result (.obj [((("score").toList), .num 7)]) 10 =
      .ok { score :=
              max 0 (min ((pyFloat ((dictGet [((("score").toList), .num 7)]
                (("score").toList)).getD (.num 0))).getD 0) 10)
            comment := (dictGet [((("score").toList), JVal.num 7)]
              (("comment").toList)).getD (.str [])
            question_id := none }) ∧
    ((0 : ℚ) < 10 ∧
      (0 ≤ max 0 (min (7 : ℚ) 10) ∧ max 0 (min (7 : ℚ) 10) ≤ 10 ∧
        (0 ≤ (7 : ℚ) → (7 : ℚ) ≤ 10 → max 0 (min (7 : ℚ) 10) = 7))) :=
  ⟨parse_result_clamp.1 [((("score").toList), .num 7)] 10,
   by norm_num, parse_result_clamp.2 7 10 (by norm_num)⟩

/-- C6 as stated is false: with one question and two judgment results,
`generate_report` sums **all** results into `total_score` (here 3) while
`details` truncates to the single paired question (scores summing to 1),
so the invariant `totalScore == sum(details[].score)` fails. -/
theorem report_total_details_mismatch :
    (((ScoreCalculator.make [⟨1, [], [], 10⟩] 0).generate_report
        [⟨1, .str [], none⟩, ⟨2, .str [], none⟩]).details.length = 1) ∧
    (((ScoreCalculator.make [⟨1, [], [], 10⟩] 0).generate_report
        [⟨1, .str [], none⟩, ⟨2, .str [], none⟩]).total_score = 3) ∧
    ((((ScoreCalculator.make [⟨1, [], [], 10⟩] 0).generate_report
        [⟨1, .str [], none⟩, ⟨2, .str [], none⟩]).details.map
          ReportDetail.score).sum = 1) ∧
    ¬ (((ScoreCalculator.make [⟨1, [], [], 10⟩] 0).generate_report
        [⟨1, .str [], none⟩, ⟨2, .str [], none⟩]).total_score =
       ((((ScoreCalculator.make [⟨1, [], [], 10⟩] 0).generate_report
        [⟨1, .str [], none⟩, ⟨2, .str [], none⟩]).details.map
          ReportDetail.score).sum)) := by
  refine ⟨?_, ?_, ?_, ?_⟩ <;>
    norm_num [ScoreCalculator.generate_report, ScoreCalculator.calculate_total,
      ScoreCalculator.make]

/-- C6 amended: the `details` list truncates to the shorter of the two
lists, `total_score` sums **all** judgment results, and the invariant
`totalScore == sum(details[].score)` holds whenever the judgment
results do not outnumber the questions. -/
theorem report_truncation :
    ∀ (qs : List Question) (ps : ℚ) (rs : List JudgeResult),
      ((ScoreCalculator.make qs ps).generate_report rs).details.length =
        min qs.length rs.length ∧
      ((ScoreCalculator.make qs ps).generate_report rs).total_score =
        (rs.map JudgeResult.score).sum ∧
      (rs.length ≤ qs.length →
        ((ScoreCalculator.make qs ps).generate_report rs).total_score =
          ((((ScoreCalculator.make qs ps).generate_report rs).details.map
            ReportDetail.score).sum)) := by
  intro qs ps rs
  refine ⟨?_, rfl, ?_⟩
  · simp [ScoreCalculator.generate_report, ScoreCalculator.calculate_total,
      ScoreCalculator.make]
  · intro hle
    have hsnd : (qs.zip rs).map Prod.snd = rs := List.map_snd_zip qs rs hle
    simp only [ScoreCalculator.generate_report, ScoreCalculator.calculate_total,
      ScoreCalculator.make, List.map_map]
    have hfun : ((qs.zip rs).map
        (ReportDetail.score ∘ fun qr : Question × JudgeResult =>
          ({ question_id := qr.1.id, question := qr.1.text,
             max_points := qr.1.points, score := qr.2.score,
             comment := qr.2.comment } : ReportDetail))) =
        ((qs.zip rs).map Prod.snd).map JudgeResult.score := by
      rw [List.map_map]; rfl
    rw [hfun, hsnd]

/-- Witness for C6 amended at equal-length concrete lists. -/
theorem report_truncation_witness :
    (((ScoreCalculator.make [⟨1, [], [], 10⟩] 0).generate_report
        [⟨2, .str [], none⟩]).details.length = min 1 1) ∧
    (((ScoreCalculator.make [⟨1, [], [], 10⟩] 0).generate_report
        [⟨2, .str [], none⟩]).total_score =
      ((((ScoreCalculator.make [⟨1, [], [], 10⟩] 0).generate_report
        [⟨2, .str [], none⟩]).details.map ReportDetail.score).sum)) :=
  ⟨(report_truncation [⟨1, [], [], 10⟩] 0 [⟨2, .str [], none⟩]).1,
   (report_truncation [⟨1, [], [], 10⟩] 0 [⟨2, .str [], none⟩]).2.2
     (by decide)⟩

/-- The retry loop when every attempt up to `max_retries` fails: from
loop position `attempt` with `r` iterations left it makes the `r`
remaining attempts, waits `(i+1)*2` seconds after every failure except
the last, and raises the wrapped final cause. -/
theorem chatAux_all_fail (call : Nat → Except Str Str) (err : Nat → Str)
    (mr : Nat) (hc : ∀ i, i < mr → call i = .error (err i)) :
    ∀ (r attempt : Nat), attempt + r = mr → 0 < r →
      AIClient.chatAux call mr attempt r =
        ⟨.error (wrapFailMsg mr (err (mr - 1))), r,
         (List.range' attempt (r - 1)).map (fun i => (i + 1) * 2)⟩ := by
  intro r
  induction r with
  | zero => intro attempt _ h0; exact absurd h0 (by omega)
  | succ r ih =>
    intro attempt hsum _
    have hlt : attempt < mr := by omega
    simp only [AIClient.chatAux]
    rw [hc attempt hlt]
    dsimp only
    by_cases hlast : attempt = mr - 1
    · have hr0 : r = 0 := by omega
      subst hr0
      simp [hlast]
    · have hr : 0 < r := by omega
      rw [if_neg hlast, ih (attempt + 1) (by omega) hr]
      have hrange : List.range' attempt (r + 1 - 1) =
          attempt :: List.range' (attempt + 1) (r - 1) := by
        obtain ⟨k, rfl⟩ : ∃ k, r = k + 1 := ⟨r - 1, by omega⟩
        simpa using List.range'_succ attempt k 1
      rw [hrange]
      simp

/-- The retry loop when the first success is at attempt `k`: it stops
there, having made the failed attempts before `k` (each followed by its
backoff wait) plus the successful one. -/
theorem chatAux_first_success (call : Nat → Except Str Str) (mr k : Nat)
    (s : Str) (hk : call k = .ok s) (hklt : k < mr)
    (hfail : ∀ i, i < k → ∃ e, call i = Except.error e) :
    ∀ (r attempt : Nat), attempt + r = mr → attempt ≤ k →
      AIClient.chatAux call mr attempt r =
        ⟨.ok (some s), k - attempt + 1,
         (List.range' attempt (k - attempt)).map (fun i => (i + 1) * 2)⟩ := by
  intro r
  induction r with
  | zero => intro attempt hsum hle; exact absurd hklt (by omega)
  | succ r ih =>
    intro attempt hsum hle
    simp only [AIClient.chatAux]
    rcases eq_or_lt_of_le hle with heq | hlt2
    · subst heq
      rw [hk]
      simp
    · obtain ⟨e, he⟩ := hfail attempt hlt2
      rw [he]
      dsimp only
      have hnl : attempt ≠ mr - 1 := by omega
      rw [if_neg hnl, ih (attempt + 1) (by omega) (by omega)]
      have hrange : List.range' attempt (k - attempt) =
          attempt :: List.range' (attempt + 1) (k - (attempt + 1)) := by
        obtain ⟨d, hd⟩ : ∃ d, k - attempt = d + 1 := ⟨k - attempt - 1, by omega⟩
        rw [hd, show k - (attempt + 1) = d by omega]
        simpa using List.range'_succ attempt d 1
      rw [hrange]
      simp only [List.map_cons, ChatTrace.mk.injEq]
      exact ⟨trivial, by omega, trivial⟩

/-- C2: `chat` makes up to `max_retries` attempts; when every attempt
fails it makes exactly `max_retries` attempts, waiting `(i+1)*2`
seconds after each failed attempt except the last, and raises an error
wrapping the final cause; when attempt `k` is the first success it
stops after `k+1` attempts (no retry after success).  With
`max_retries = 3` and an always-failing call: exactly 3 attempts, then
the wrapped error, with waits `[2, 4]` summing to 6 and no wait after
the final failure. -/
theorem chat_retry_policy :
    (∀ (call : Nat → Except Str Str) (err : Nat → Str) (mr : Nat),
      0 < mr → (∀ i, i < mr → call i = .error (err i)) →
      AIClient.chat call mr =
        ⟨.error (wrapFailMsg mr (err (mr - 1))), mr,
         (List.range (mr - 1)).map (fun i => (i + 1) * 2)⟩) ∧
    (∀ (call : Nat → Except Str Str) (mr k : Nat) (s : Str),
      k < mr → call k = .ok s → (∀ i, i < k → ∃ e, call i = Except.error e) →
      AIClient.chat call mr =
        ⟨.ok (some s), k + 1, (List.range k).map (fun i => (i + 1) * 2)⟩) ∧
    (AIClient.chat (fun _ => .error (("boom").toList)) 3 =
      ⟨.error (wrapFailMsg 3 (("boom").toList)), 3, [2, 4]⟩ ∧
     ([2, 4] : List Nat).sum = 2 + 4 ∧ (2 + 4 : Nat) = 6) := by
  refine ⟨?_, ?_, ?_, rfl, rfl⟩
  · intro call err mr h0 hc
    rw [AIClient.chat, chatAux_all_fail call err mr hc mr 0 (by omega) h0,
      List.range_eq_range']
  · intro call mr k s hklt hk hfail
    rw [AIClient.chat,
      chatAux_first_success call mr k s hk hklt hfail mr 0 (by omega) (by omega),
      List.range_eq_range']
    simp
  · rfl

/-- Witness for C2: the always-failing branch at `max_retries = 2` and
the first-success-at-attempt-1 branch at `max_retries = 3`. -/
theorem chat_retry_policy_witness :
    AIClient.chat (fun _ => Except.error (("x").toList)) 2 =
      ⟨.error (wrapFailMsg 2 (("x").toList)), 2,
       (List.range 1).map (fun i => (i + 1) * 2)⟩ ∧
    AIClient.chat (fun i => if i = 0 then Except.error (("x").toList)
        else Except.ok (("y").toList)) 3 =
      ⟨.ok (some (("y").toList)), 2, (List.range 1).map (fun i => (i + 1) * 2)⟩ := by
  constructor
  · exact chat_retry_policy.1 _ (fun _ => ("x").toList) 2 (by norm_num)
      (fun i _ => rfl)
  · exact chat_retry_policy.2.1 _ 3 1 (("y").toList) (by norm_num) rfl
      (fun i hi => ⟨("x").toList, by
        have h0 : i = 0 := by omega
        subst h0
        rfl⟩)

/-- The loop counter never decreases: the final `processed` is at
least the starting value. -/
theorem runAux_processed_ge (cap : Option Nat) :
    ∀ (outcomes : List Bool) (p : Nat),
      p ≤ (GradingSystem.runAux cap outcomes p).processed := by
  intro outcomes
  induction outcomes with
  | nil => intro p; exact le_refl p
  | cons o rest ih =>
    intro p
    simp only [GradingSystem.runAux]
    split
    · cases o with
      | true =>
        rw [if_pos rfl]
        exact le_trans (Nat.le_succ p) (ih (p + 1))
      | false => simp
    · exact le_refl p

/-- Uncapped run (`max_exams is None`): the loop runs one iteration per
successful attempt plus one final failing attempt when the outcome
stream contains a failure, sleeping 2 seconds after each success. -/
theorem runAux_none_trace :
    ∀ (outcomes : List Bool) (p : Nat),
      GradingSystem.runAux none outcomes p =
        ⟨p + (outcomes.takeWhile id).length,
         (outcomes.takeWhile id).length +
           (if (outcomes.takeWhile id).length < outcomes.length then 1 else 0),
         2 * (outcomes.takeWhile id).length⟩ := by
  intro outcomes
  induction outcomes with
  | nil => intro p; simp [GradingSystem.runAux]
  | cons o rest ih =>
    intro p
    cases o with
    | true =>
      simp only [GradingSystem.runAux, if_pos, List.takeWhile_cons, id,
        List.length_cons, ih (p + 1)]
      simp only [RunTrace.mk.injEq]
      refine ⟨by omega, ?_, by omega⟩
      by_cases h : (rest.takeWhile id).length < rest.length
      · rw [if_pos h, if_pos (by simpa using h)]
      · rw [if_neg h, if_neg (by simpa using h)]
    | false =>
      simp [GradingSystem.runAux, List.takeWhile_cons, id]

/-- Capped run: the final counter is the number of successes in the
longest successful prefix, clipped at the cap. -/
theorem runAux_some_processed (m : Nat) :
    ∀ (outcomes : List Bool) (p : Nat), p ≤ m →
      (GradingSystem.runAux (some m) outcomes p).processed =
        min (p + (outcomes.takeWhile id).length) m := by
  intro outcomes
  induction outcomes with
  | nil => intro p hp; simp [GradingSystem.runAux]; omega
  | cons o rest ih =>
    intro p hp
    simp only [GradingSystem.runAux]
    by_cases hlt : p < m
    · rw [if_pos (by simpa using hlt)]
      cases o with
      | true =>
        simp only [if_pos, List.takeWhile_cons, id]
        rw [show (GradingSystem.runAux (some m) rest (p + 1)).processed =
            min (p + 1 + (rest.takeWhile id).length) m from ih (p + 1) hlt]
        simp only [List.length_cons]
        omega
      | false =>
        simp [List.takeWhile_cons, id]
        omega
    · rw [if_neg (by simpa using hlt)]
      have hpm : p = m := by omega
      simp [hpm]

/-- Every run sleeps exactly 2 seconds per success: total wait is twice
the number of processed exams. -/
theorem runAux_wait (cap : Option Nat) :
    ∀ (outcomes : List Bool) (p : Nat),
      (GradingSystem.runAux cap outcomes p).total_wait =
        2 * ((GradingSystem.runAux cap outcomes p).processed - p) := by
  intro outcomes
  induction outcomes with
  | nil => intro p; simp [GradingSystem.runAux]
  | cons o rest ih =>
    intro p
    simp only [GradingSystem.runAux]
    split
    · cases o with
      | true =>
        have hge := runAux_processed_ge cap rest (p + 1)
        have hw := ih (p + 1)
        rw [if_pos rfl]
        dsimp only
        omega
      | false => simp
    · simp

/-- A run makes at most one attempt beyond its successes: the first
failing attempt ends the whole run (no retry of the attempt, no skip
to the next exam). -/
theorem runAux_attempts_le (cap : Option Nat) :
    ∀ (outcomes : List Bool) (p : Nat),
      (GradingSystem.runAux cap outcomes p).attempts ≤
        ((GradingSystem.runAux cap outcomes p).processed - p) + 1 := by
  intro outcomes
  induction outcomes with
  | nil => intro p; simp [GradingSystem.runAux]
  | cons o rest ih =>
    intro p
    simp only [GradingSystem.runAux]
    split
    · cases o with
      | true =>
        have hge := runAux_processed_ge cap rest (p + 1)
        have ha := ih (p + 1)
        rw [if_pos rfl]
        dsimp only
        omega
      | false => simp
    · simp

/-- C9: for every sequence of per-attempt outcomes and optional limit,
the run loop's final processed count is the length of the longest
successful prefix, capped at `max_exams`; it performs at most one
attempt beyond its successes (the run stops at the first failure
without retrying or skipping), makes exactly one extra failing attempt
in the uncapped case when a failure exists, and waits the fixed 2-second
inter-exam delay after each successful attempt. -/
theorem run_loop_processed :
    (∀ outcomes : List Bool,
      GradingSystem.run outcomes none =
        ⟨(outcomes.takeWhile id).length,
         (outcomes.takeWhile id).length +
           (if (outcomes.takeWhile id).length < outcomes.length then 1 else 0),
         2 * (outcomes.takeWhile id).length⟩) ∧
    (∀ (outcomes : List Bool) (m : Nat),
      (GradingSystem.run outcomes (some m)).processed =
        min (outcomes.takeWhile id).length m) ∧
    (∀ (outcomes : List Bool) (cap : Option Nat),
      (GradingSystem.run outcomes cap).total_wait =
        2 * (GradingSystem.run outcomes cap).processed) ∧
    (∀ (outcomes : List Bool) (cap : Option Nat),
      (GradingSystem.run outcomes cap).attempts ≤
        (GradingSystem.run outcomes cap).processed + 1) := by
  refine ⟨?_, ?_, ?_, ?_⟩
  · intro outcomes
    rw [GradingSystem.run, runAux_none_trace outcomes 0]
    simp
  · intro outcomes m
    rw [GradingSystem.run, runAux_some_processed m outcomes 0 (Nat.zero_le m)]
    simp
  · intro outcomes cap
    rw [GradingSystem.run, runAux_wait cap outcomes 0, Nat.sub_zero]
  · intro outcomes cap
    have := runAux_attempts_le cap outcomes 0
    simpa [GradingSystem.run] using this

/-- C3 as stated is false: `_build_prompt` runs **before** the `try`
block of `judge`, so a template whose replacement field is not one of
the four supplied keyword arguments makes `judge` propagate the
`KeyError` instead of returning a zero-score result. -/
theorem judge_propagates_prompt_error :
    AIJudge.judge (fun _ => Except.ok (("ok").toList)) 3
        [TItem.field (("foo").toList)] ⟨1, [], [], 10⟩ [] =
      Except.error ((("KeyError: ").toList) ++ (("foo").toList)) := rfl

/-- C3 amended: whenever prompt construction succeeds, `judge` never
propagates an exception — the gateway call and parsing are inside the
`try`, and an exception from either yields a zero-score result with a
non-empty failure comment: so with an always-failing gateway, and also
whenever `_parse_result` raises (e.g. on a non-object reply); only
prompt-construction exceptions escape. -/
theorem judge_failure_policy :
    (∀ (call : Nat → Except Str Str) (mr : Nat) (tmpl : Template)
        (q : Question) (ans p : Str),
      AIJudge.build_prompt tmpl q ans = .ok p →
      ∃ jr, AIJudge.judge call mr tmpl q ans = Except.ok jr) ∧
    (∀ (call : Nat → Except Str Str) (err : Nat → Str) (mr : Nat)
        (tmpl : Template) (q : Question) (ans p : Str),
      AIJudge.build_prompt tmpl q ans = .ok p →
      0 < mr → (∀ i, i < mr → call i = .error (err i)) →
      ∃ c, AIJudge.judge call mr tmpl q ans =
          Except.ok { score := 0, comment := JVal.str c, question_id := some q.id } ∧
        c ≠ []) ∧
    (∀ (call : Nat → Except Str Str) (mr : Nat) (tmpl : Template)
        (q : Question) (ans p : Str) (result : JVal) (e : Str),
      AIJudge.build_prompt tmpl q ans = .ok p →
      AIClient.chat_json call mr = .ok result →
      AIJudge.parse_result result q.points = .error e →
      AIJudge.judge call mr tmpl q ans =
        Except.ok { score := 0,
                    comment := JVal.str ((("判卷失败: ").toList) ++ e),
                    question_id := some q.id } ∧
      (("判卷失败: ").toList) ++ e ≠ []) := by
  refine ⟨?_, ?_, ?_⟩
  · intro call mr tmpl q ans p hp
    simp only [AIJudge.judge]
    rw [hp]
    dsimp only
    cases hcj : AIClient.chat_json call mr with
    | error e => exact ⟨_, rfl⟩
    | ok result =>
      dsimp only
      cases hpr : AIJudge.parse_result result q.points with
      | error e => exact ⟨_, rfl⟩
      | ok jr => exact ⟨_, rfl⟩
  · intro call err mr tmpl q ans p hp h0 hc
    have hchat : AIClient.chat call mr =
        ⟨.error (wrapFailMsg mr (err (mr - 1))), mr,
         (List.range' 0 (mr - 1)).map (fun i => (i + 1) * 2)⟩ := by
      rw [AIClient.chat]
      exact chatAux_all_fail call err mr hc mr 0 (by omega) h0
    have hcj : AIClient.chat_json call mr =
        .error (wrapFailMsg mr (err (mr - 1))) := by
      simp only [AIClient.chat_json, hchat]
    refine ⟨(("判卷失败: ").toList) ++ wrapFailMsg mr (err (mr - 1)), ?_, ?_⟩
    · simp only [AIJudge.judge]
      rw [hp]
      dsimp only
      rw [hcj]
    · intro hnil
      rw [List.append_eq_nil] at hnil
      exact absurd hnil.1 (by decide)
  · intro call mr tmpl q ans p result e hp hcj hpr
    constructor
    · simp only [AIJudge.judge]
      rw [hp]
      dsimp only
      rw [hcj]
      dsimp only
      rw [hpr]
    · intro hnil
      rw [List.append_eq_nil] at hnil
      exact absurd hnil.1 (by decide)

/-- Witness for C3 amended: the empty template builds successfully, so
`judge` returns `.ok` both for a succeeding and for an always-failing
gateway (the latter with a non-empty failure comment), and a gateway
reply parsing to the non-object `null` makes `_parse_result` raise,
which `judge` absorbs into a zero-score, non-empty-comment result. -/
theorem judge_failure_policy_witness :
    (∃ jr, AIJudge.judge (fun _ => Except.ok (("ok").toList)) 1 []
        ⟨1, [], [], 10⟩ [] = Except.ok jr) ∧
    (∃ c, AIJudge.judge (fun _ => Except.error (("boom").toList)) 1 []
        ⟨1, [], [], 10⟩ [] =
        Except.ok { score := 0, comment := JVal.str c,
                    question_id := some 1 } ∧ c ≠ []) ∧
    (AIJudge.judge (fun _ => Except.ok (("null").toList)) 1 []
        ⟨1, [], [], 10⟩ [] =
      Except.ok { score := 0,
                  comment := JVal.str ((("判卷失败: ").toList) ++
                    (("AttributeError: object has no attribute 'get'").toList)),
                  question_id := some 1 } ∧
     (("判卷失败: ").toList) ++
       (("AttributeError: object has no attribute 'get'").toList) ≠ []) :=
  ⟨judge_failure_policy.1 _ 1 [] ⟨1, [], [], 10⟩ [] [] rfl,
   judge_failure_policy.2.1 _ (fun _ => ("boom").toList) 1 [] ⟨1, [], [], 10⟩ [] []
     rfl (by norm_num) (fun i _ => rfl),
   judge_failure_policy.2.2 (fun _ => Except.ok (("null").toList)) 1 []
     ⟨1, [], [], 10⟩ [] [] JVal.null
     (("AttributeError: object has no attribute 'get'").toList) rfl rfl rfl⟩

/-- C4 as stated is false on a text that begins with both markers: the
code strips the 7-character json marker **and then also** a following
bare 3-character marker, so `"```json```null"` decodes to `null`, while
under the claim's "at most one leading marker" stripping the remainder
is not parseable JSON and the claim demands the `{"raw": ...}`
sentinel. -/
theorem chat_json_double_marker :
    json_loads (specDecodeText (("```json```null").toList)) = none ∧
    AIClient.chat_json (fun _ => Except.ok (("```json```null").toList)) 1 =
      Except.ok JVal.null ∧
    JVal.null ≠ JVal.obj [((("raw").toList), JVal.str (("```json```null").toList))] := by
  refine ⟨rfl, rfl, ?_⟩
  intro h
  exact JVal.noConfusion h

/-- C4 amended: `chat_json` strips whitespace, then at most one leading
json marker, then at most one further leading bare marker, then at most
one trailing marker; any successful response text whose stripped form
is not parseable JSON yields the `{"raw": originalText}` sentinel with
the original, unstripped text, instead of raising. -/
theorem chat_json_raw_sentinel :
    ∀ (call : Nat → Except Str Str) (mr : Nat) (text : Str),
      (AIClient.chat call mr).result = .ok (some text) →
      json_loads (decodeText text) = none →
      AIClient.chat_json call mr = .ok (.obj [((("raw").toList), .str text)]) := by
  intro call mr text hres hparse
  simp only [AIClient.chat_json, hres, hparse]

/-- Witness for C4 amended at a concrete non-JSON response. -/
theorem chat_json_raw_sentinel_witness :
    AIClient.chat_json (fun _ => Except.ok (("hello").toList)) 1 =
      .ok (.obj [((("raw").toList), .str (("hello").toList))]) :=
  chat_json_raw_sentinel (fun _ => Except.ok (("hello").toList)) 1
    (("hello").toList) rfl rfl

/-- C7 as stated is false in its comment clause: a malformed reply does
degrade to the `{"raw": text}` sentinel without raising, but the Judge
consuming that sentinel produces the **empty** comment (the sentinel
mapping has no `comment` key, and the default is `""`), not an
explanatory one. -/
theorem judge_sentinel_empty_comment :
    AIClient.chat_json (fun _ => Except.ok (("not json").toList)) 1 =
      Except.ok (.obj [((("raw").toList), .str (("not json").toList))]) ∧
    AIJudge.judge (fun _ => Except.ok (("not json").toList)) 1 []
        ⟨1, [], [], 10⟩ [] =
      Except.ok { score := 0, comment := JVal.str [], question_id := none } := by
  constructor
  · rfl
  · have h1 : AIClient.chat_json (fun _ => Except.ok (("not json").toList)) 1 =
        Except.ok (.obj [((("raw").toList), .str (("not json").toList))]) := rfl
    simp only [AIJudge.judge, AIJudge.build_prompt, formatTemplate, h1,
      AIJudge.parse_result]
    have hsc : dictGet [((("raw").toList), JVal.str (("not json").toList))]
        (("score").toList) = none := rfl
    have hcm : dictGet [((("raw").toList), JVal.str (("not json").toList))]
        (("comment").toList) = none := rfl
    rw [hsc, hcm]
    simp only [Option.getD_none, pyFloat, Option.getD_some]
    norm_num

/-- C7 amended: a malformed (non-JSON) inference reply never raises
anywhere in the pipeline: the gateway degrades it to the
`{"raw": text}` sentinel, and the Judge consuming the sentinel returns
a zero-score result with the **empty** comment. -/
theorem judge_sentinel_zero_score :
    ∀ (call : Nat → Except Str Str) (mr : Nat) (text : Str)
      (tmpl : Template) (q : Question) (ans p : Str),
      (AIClient.chat call mr).result = .ok (some text) →
      json_loads (decodeText text) = none →
      AIJudge.build_prompt tmpl q ans = .ok p →
      AIClient.chat_json call mr = .ok (.obj [((("raw").toList), .str text)]) ∧
      AIJudge.judge call mr tmpl q ans =
        Except.ok { score := 0, comment := JVal.str [], question_id := none } := by
  intro call mr text tmpl q ans p hres hparse hp
  have hcj : AIClient.chat_json call mr =
      .ok (.obj [((("raw").toList), .str text)]) := by
    simp only [AIClient.chat_json, hres, hparse]
  refine ⟨hcj, ?_⟩
  simp only [AIJudge.judge]
  rw [hp]
  dsimp only
  rw [hcj]
  have hsc : dictGet [((("raw").toList), JVal.str text)] (("score").toList) =
      none := rfl
  have hcm : dictGet [((("raw").toList), JVal.str text)] (("comment").toList) =
      none := rfl
  simp only [AIJudge.parse_result, hsc, hcm, Option.getD_none, pyFloat,
    Option.getD_some]
  have hclamp : max 0 (min ((0 : ℚ)) q.points) = 0 :=
    max_eq_left (min_le_left 0 q.points)
  rw [hclamp]

/-- Witness for C7 amended at a concrete malformed reply. -/
theorem judge_sentinel_zero_score_witness :
    AIClient.chat_json (fun _ => Except.ok (("oops").toList)) 1 =
      .ok (.obj [((("raw").toList), .str (("oops").toList))]) ∧
    AIJudge.judge (fun _ => Except.ok (("oops").toList)) 1 []
        ⟨2, [], [], 5⟩ [] =
      Except.ok { score := 0, comment := JVal.str [], question_id := none } :=
  judge_sentinel_zero_score (fun _ => Except.ok (("oops").toList)) 1
    (("oops").toList) [] ⟨2, [], [], 5⟩ [] [] rfl rfl rfl

/-- Dropping leading whitespace does not enter a left part that keeps
its own leading character. -/
theorem pyTrimLeft_append (a x : Str) (ha : a.dropWhile isPySpace = a)
    (hne : a ≠ []) : pyTrimLeft (a ++ x) = a ++ x := by
  rw [pyTrimLeft, List.dropWhile_append, ha]
  simp [hne]

/-- Dropping trailing whitespace does not enter a right part that keeps
its own trailing character. -/
theorem pyTrimRight_append (x a : Str)
    (ha : a.reverse.dropWhile isPySpace = a.reverse) (hne : a ≠ []) :
    pyTrimRight (x ++ a) = x ++ a := by
  rw [pyTrimRight, List.reverse_append, List.dropWhile_append, ha]
  have : a.reverse ≠ [] := by simpa using hne
  simp [this]

/-- The bare fence marker is not a prefix of a string that starts with
a newline. -/
theorem fence_not_prefix_newline (y : Str) :
    (("```").toList).isPrefixOf ('\n' :: y) = false := by
  cases h : (("```").toList).isPrefixOf ('\n' :: y)
  · rfl
  · exfalso
    obtain ⟨s, hs⟩ := (List.isPrefixOf_iff_prefix).mp h
    rw [show (("```").toList) = '\x60' :: '\x60' :: '\x60' :: [] from by decide,
      List.cons_append] at hs
    exact absurd (List.cons.inj hs).1 (by decide)

/-- A string that does not start with the bare marker does not start
with the json marker either. -/
theorem fence_json_not_prefix (t : Str)
    (h : (("```").toList).isPrefixOf t = false) :
    (("```json").toList).isPrefixOf t = false := by
  cases hj : (("```json").toList).isPrefixOf t
  · rfl
  · exfalso
    have hjp := (List.isPrefixOf_iff_prefix).mp hj
    have h3j : (("```").toList) <+: (("```json").toList) :=
      ⟨("json").toList, by decide⟩
    have : (("```").toList).isPrefixOf t = true :=
      (List.isPrefixOf_iff_prefix).mpr (h3j.trans hjp)
    rw [h] at this
    exact Bool.false_ne_true this

/-- C8: the fence-stripping pipeline of `chat_json` is a no-op on
trimmed fenceless text, and a fenceless JSON text wrapped in a
```` ```json ... ``` ```` fence decodes to exactly the same string as
the unwrapped text, hence parses to the same mapping. -/
theorem fence_strip_roundtrip :
    (∀ t : Str, pyTrimLeft t = t → pyTrimRight t = t →
      (("```").toList).isPrefixOf t = false →
      (("```").toList).isSuffixOf t = false →
      decodeText t = t) ∧
    (∀ t : Str, t ≠ [] → pyTrimLeft t = t → pyTrimRight t = t →
      (("```").toList).isPrefixOf t = false →
      (("```").toList).isSuffixOf t = false →
      decodeText ((("```json").toList) ++
          ('\n' :: (t ++ ('\n' :: (("```").toList))))) = t ∧
      json_loads (decodeText ((("```json").toList) ++
          ('\n' :: (t ++ ('\n' :: (("```").toList)))))) =
        json_loads (decodeText t)) := by
  have noop : ∀ t : Str, pyTrimLeft t = t → pyTrimRight t = t →
      (("```").toList).isPrefixOf t = false →
      (("```").toList).isSuffixOf t = false →
      decodeText t = t := by
    intro t hTL hTR hpre hsuf
    have hstrip : pyStrip t = t := by rw [pyStrip, hTL, hTR]
    have hj := fence_json_not_prefix t hpre
    simp only [decodeText, fenceStrip]
    rw [hstrip]
    rw [if_neg (show ¬((("```json").toList).isPrefixOf t = true) by
      rw [hj]; exact Bool.false_ne_true)]
    rw [if_neg (show ¬((("```").toList).isPrefixOf t = true) by
      rw [hpre]; exact Bool.false_ne_true)]
    rw [if_neg (show ¬((("```").toList).isSuffixOf t = true) by
      rw [hsuf]; exact Bool.false_ne_true)]
    exact hstrip
  refine ⟨noop, ?_⟩
  intro t ht hTL hTR hpre hsuf
  have hTL' : t.dropWhile isPySpace = t := hTL
  have hTR' : t.reverse.dropWhile isPySpace = t.reverse := by
    have hc := congrArg List.reverse hTR
    rw [pyTrimRight, List.reverse_reverse] at hc
    exact hc
  -- step 1: the outer strip leaves the fenced text unchanged
  have hstrip1 : pyStrip ((("```json").toList) ++
      ('\n' :: (t ++ ('\n' :: (("```").toList))))) =
      (("```json").toList) ++ ('\n' :: (t ++ ('\n' :: (("```").toList)))) := by
    rw [pyStrip,
      pyTrimLeft_append (("```json").toList)
        ('\n' :: (t ++ ('\n' :: (("```").toList)))) (by decide) (by decide)]
    have hsplit : (("```json").toList) ++
        ('\n' :: (t ++ ('\n' :: (("```").toList)))) =
        ((("```json").toList) ++ ('\n' :: (t ++ ['\n']))) ++ (("```").toList) := by
      simp
    rw [hsplit,
      pyTrimRight_append ((("```json").toList) ++ ('\n' :: (t ++ ['\n'])))
        (("```").toList) (by decide) (by decide)]
  -- step 2: the json marker is stripped
  have hjson : (("```json").toList).isPrefixOf ((("```json").toList) ++
      ('\n' :: (t ++ ('\n' :: (("```").toList))))) = true :=
    (List.isPrefixOf_iff_prefix).mpr ⟨_, rfl⟩
  have hdrop7 : ((("```json").toList) ++
      ('\n' :: (t ++ ('\n' :: (("```").toList))))).drop 7 =
      '\n' :: (t ++ ('\n' :: (("```").toList))) := by
    rw [show (7 : Nat) = (("```json").toList).length from by decide,
      List.drop_left]
  -- step 3: no further leading marker
  have hbare := fence_not_prefix_newline (t ++ ('\n' :: (("```").toList)))
  -- step 4: the trailing marker is stripped
  have hsuffix : (("```").toList).isSuffixOf
      ('\n' :: (t ++ ('\n' :: (("```").toList)))) = true := by
    refine (List.isSuffixOf_iff_suffix).mpr ⟨'\n' :: (t ++ ['\n']), ?_⟩
    simp
  have hdrop3 : pyDropRight ('\n' :: (t ++ ('\n' :: (("```").toList)))) 3 =
      '\n' :: (t ++ ['\n']) := by
    have hsplit2 : ('\n' :: (t ++ ('\n' :: (("```").toList))) : Str) =
        ('\n' :: (t ++ ['\n'])) ++ (("```").toList) := by
      simp
    rw [hsplit2, pyDropRight, List.reverse_append,
      show (3 : Nat) = ((("```").toList).reverse).length from by decide,
      List.drop_left, List.reverse_reverse]
  -- step 5: the final strip recovers the bare text
  have htne : t.isEmpty = false := by
    cases t with
    | nil => exact absurd rfl ht
    | cons a l => rfl
  have hfinal : pyStrip ('\n' :: (t ++ ['\n'])) = t := by
    have h1 : pyTrimLeft ('\n' :: (t ++ ['\n'])) = t ++ ['\n'] := by
      rw [pyTrimLeft, List.dropWhile_cons, if_pos (by decide),
        List.dropWhile_append, hTL', htne]
      simp
    have h2 : pyTrimRight (t ++ ['\n']) = t := by
      rw [pyTrimRight, List.reverse_append]
      simp only [List.reverse_cons, List.reverse_nil, List.nil_append,
        List.singleton_append]
      rw [List.dropWhile_cons, if_pos (by decide), hTR', List.reverse_reverse]
    rw [pyStrip, h1, h2]
  have key : decodeText ((("```json").toList) ++
      ('\n' :: (t ++ ('\n' :: (("```").toList))))) = t := by
    have hfs : fenceStrip ((("```json").toList) ++
        ('\n' :: (t ++ ('\n' :: (("```").toList))))) =
        '\n' :: (t ++ ['\n']) := by
      simp only [fenceStrip]
      rw [hstrip1, if_pos hjson, hdrop7]
      rw [if_neg (show ¬((("```").toList).isPrefixOf
          ('\n' :: (t ++ ('\n' :: (("```").toList)))) = true) by
        rw [hbare]; exact Bool.false_ne_true)]
      rw [if_pos hsuffix, hdrop3]
    rw [decodeText, hfs, hfinal]
  exact ⟨key, by rw [key, noop t hTL hTR hpre hsuf]⟩

/-- Witness for C8 at the concrete JSON text `{"score": 5}`. -/
theorem fence_strip_roundtrip_witness :
    decodeText (("\x7b\"score\": 5\x7d").toList) =
      ("\x7b\"score\": 5\x7d").toList ∧
    (decodeText ((("```json").toList) ++
        ('\n' :: ((("\x7b\"score\": 5\x7d").toList) ++
          ('\n' :: (("```").toList))))) =
      ("\x7b\"score\": 5\x7d").toList ∧
     json_loads (decodeText ((("```json").toList) ++
        ('\n' :: ((("\x7b\"score\": 5\x7d").toList) ++
          ('\n' :: (("```").toList)))))) =
      json_loads (decodeText (("\x7b\"score\": 5\x7d").toList))) :=
  ⟨fence_strip_roundtrip.1 (("\x7b\"score\": 5\x7d").toList)
     (by decide) (by decide) (by decide) (by decide),
   fence_strip_roundtrip.2 (("\x7b\"score\": 5\x7d").toList)
     (by decide) (by decide) (by decide) (by decide) (by decide)⟩

/-- C10: with `max_retries = 0` the retry loop body never runs, so
`chat` makes no attempt and falls through returning `None`; `chat_json`
then fails on `None.strip()` with an `AttributeError` that its
`except json.JSONDecodeError` handler does not catch. -/
theorem chat_zero_retries :
    ∀ (call : Nat → Except Str Str),
      AIClient.chat call 0 = ⟨.ok none, 0, []⟩ ∧
      AIClient.chat_json call 0 =
        .error (("AttributeError: 'NoneType' object has no attribute 'strip'").toList) :=
  fun _ => ⟨rfl, rfl⟩

end ExamGrading
